import Mathlib

/-!
Verification of the `tomato` driver and pipeline-management code.

The development shallowly embeds two source modules:

* `src/tomato/drivers/biologic/main.py` — the BioLogic driver
  (`safe_api_connect`, `safe_api_disconnect`, `get_status`, `get_data`,
  `start_job`, `stop_job`).  The vendor `kbio` API object (constructed by
  `get_kbio_api` in `kbio_wrapper`, which is outside the embedded sources)
  is modelled as a stub (`Api`) recording the outcome of each hardware
  call, exactly as the spec's driver-stub test scenarios do.  Each driver
  function is embedded as a pure function from the stub to the trace of
  hardware calls it performs (each call annotated with whether the
  cross-process file lock is held at that moment) together with its
  Python-level outcome: a returned value or a raised exception.

* `src/tomato/tomato/__init__.py` — the client-side pipeline commands
  `pipeline_eject` and `pipeline_ready`.  These inspect the daemon's
  pipeline map and either return a `Reply` directly or send a single
  mutation request `{sampleid?, ready?}` to the daemon; the daemon's
  handler for that request is not among the embedded sources and is
  modelled from the spec (`applyParams`).

Python exceptions are modelled by their class and message (`PyErr`);
`UnboundLocalError` arises when a local variable is referenced before any
assignment to it has executed, which happens on several error paths of the
driver module.
-/

namespace Tomato

/-- Python exception classes raised by (or relevant to the specification of)
the embedded code.  `exc` is the builtin `Exception` class itself, as in
`raise Exception(...)`.  `connectionError` (the builtin) and
`protocolError` (the spec's error kind for an unrecognized hardware state)
are never raised by the source; they are included so that the spec's
statements about them can be expressed. -/
inductive ExcClass
  | exc
  | valueError
  | connectionError
  | protocolError
  | unboundLocalError
  | apiError
deriving DecidableEq

/-- A raised Python exception: its class and its message (for
`UnboundLocalError` the message slot records the offending variable). -/
structure PyErr where
  cls : ExcClass
  msg : String
deriving DecidableEq

/-- `device_info` as returned by `api.Connect`: the fields read by the
driver module. -/
structure DeviceInfo where
  model : String
  numberOfChannels : Nat
deriving DecidableEq

/-- `channel_info` as returned by `api.GetChannelInfo`.  Only the `state`
field influences control flow in the driver (`get_status` lines 167-173);
the remaining fields are copied verbatim into the metadata dict and are
not modelled. -/
structure ChannelInfo where
  state : String
deriving DecidableEq

/-- One hardware API call made by the driver.  `connect k` / `disconnect k`
record the 0-indexed attempt number within the enclosing retry loop. -/
inductive Act
  | connect (attempt : Nat)
  | getChannelInfo
  | getData
  | loadTechnique (tech : String) (first : Bool) (last : Bool)
  | startChannel
  | stopChannel
  | disconnect (attempt : Nat)
deriving DecidableEq

/-- A hardware API call together with whether the `FileLock` on the
device's lock file is held by this process at the moment of the call. -/
structure Ev where
  act : Act
  lockHeld : Bool
deriving DecidableEq

/-- Stub of the vendor `kbio` API object, giving the outcome of every
hardware call the driver can make.  `connect k` is the outcome of the
`k`-th `api.Connect` attempt (`none` = the call raises); `loadOk ti` is
whether `api.LoadTechnique` succeeds for the technique with 1-indexed
counter `ti`; the remaining fields are the outcomes of the other calls. -/
structure Api where
  connect : Nat → Option (Nat × DeviceInfo)
  getChannelInfo : Option ChannelInfo
  getData : Option Nat
  loadOk : Nat → Bool
  startOk : Bool
  stopOk : Bool
  disconnectOk : Nat → Bool

/-- The list of `Connect` attempt events `s, s+1, ..., s+len-1`, each made
while holding the file lock (the `with FileLock` block encloses each
individual `api.Connect` call). -/
def connEvs : Nat → Nat → List Ev
  | _, 0 => []
  | s, len + 1 => ⟨.connect s, true⟩ :: connEvs (s + 1) len

/-- The retry loop of `safe_api_connect` (source lines 53-63): `k` is the
index of the next attempt, `rem` the number of loop iterations left.  Each
iteration acquires the file lock, calls `api.Connect` and, on success,
returns the connection tuple (releasing the lock on return); on an
exception it sleeps and retries.  When the loop ends, line 64 raises a
plain `Exception` naming the configured retry count. -/
def connectGo (api : Api) (retries : Nat) :
    Nat → Nat → List Ev × Except PyErr (Nat × DeviceInfo)
  | _, 0 =>
    ([], .error ⟨.exc, "Failed to connect after " ++ toString retries ++ " retries"⟩)
  | k, rem + 1 =>
    match api.connect k with
    | some res => ([⟨.connect k, true⟩], .ok res)
    | none =>
      let r := connectGo api retries (k + 1) rem
      (⟨.connect k, true⟩ :: r.1, r.2)

/-- `safe_api_connect` (source lines 14-64): runs the retry loop for
`retries` iterations starting from attempt 0. -/
def safe_api_connect (api : Api) (retries : Nat) :
    List Ev × Except PyErr (Nat × DeviceInfo) :=
  connectGo api retries 0 retries

/-- The loop body of `safe_api_disconnect` (source lines 101-112): each
iteration acquires the file lock and calls `api.Disconnect`.  Whether the
call succeeds (the `try` body completes) or raises (the `except` clause
sleeps), the loop simply continues with the next iteration — the function
contains no `return` or `break`. -/
def disconnectGo (api : Api) : Nat → Nat → List Ev
  | _, 0 => []
  | k, rem + 1 =>
    match api.disconnectOk k with
    | true => ⟨.disconnect k, true⟩ :: disconnectGo api (k + 1) rem
    | false => ⟨.disconnect k, true⟩ :: disconnectGo api (k + 1) rem

/-- The disconnect attempt events `s, ..., s+len-1`, each under the lock. -/
def discEvs : Nat → Nat → List Ev
  | _, 0 => []
  | s, len + 1 => ⟨.disconnect s, true⟩ :: discEvs (s + 1) len

/-- `safe_api_disconnect` (source lines 67-113): after the loop finishes —
which it always does, since no branch leaves the loop early — line 113
unconditionally raises `Exception("Failed to disconnect after .. retries")`,
regardless of whether any `api.Disconnect` call succeeded. -/
def safe_api_disconnect (api : Api) (retries : Nat) :
    List Ev × Except PyErr Unit :=
  (disconnectGo api 0 retries,
   .error ⟨.exc, "Failed to disconnect after " ++ toString retries ++ " retries"⟩)

/-- `get_status` (source lines 116-175).  The `try` block connects, calls
`api.GetChannelInfo` (after `safe_api_connect` has returned, i.e. with the
file lock released) and calls `safe_api_disconnect`; the `except` clause
only logs the exception.  If the connection failed, line 161
(`device_info.model`) then raises `UnboundLocalError`; if `GetChannelInfo`
raised, line 163 (`channel_info.state`) does.  Otherwise (the disconnect
exception having been logged and swallowed) lines 167-173 map the channel
state: `"STOP"` gives `ready = True`, `"RUN"` gives `ready = False`, and
any other state raises `ValueError("channel state not understood")`.  The
result is the `ready` flag and the `channel_state` metadata entry; the
wall-clock timestamp and the remaining metadata entries (dll version,
device model/channels, board, amplifier, current ranges) are verbatim
copies not modelled here. -/
def get_status (api : Api) (retries : Nat) :
    List Ev × Except PyErr (Bool × String) :=
  let c := safe_api_connect api retries
  match c.2 with
  | .error _ => (c.1, .error ⟨.unboundLocalError, "device_info"⟩)
  | .ok _ =>
    match api.getChannelInfo with
    | none => (c.1 ++ [⟨.getChannelInfo, false⟩],
               .error ⟨.unboundLocalError, "channel_info"⟩)
    | some ci =>
      let d := safe_api_disconnect api retries
      let tr := c.1 ++ [⟨.getChannelInfo, false⟩] ++ d.1
      if ci.state = "STOP" then (tr, .ok (true, ci.state))
      else if ci.state = "RUN" then (tr, .ok (false, ci.state))
      else (tr, .error ⟨.valueError, "channel state not understood"⟩)

/-- `get_data` (source lines 178-224).  Structure as in `get_status`: the
`try` block connects, calls `api.GetData` (lock released) and disconnects,
the `except` clause only logs.  Line 223 then passes the local `data` to
`parse_raw_data`; if the connection or the `GetData` call failed, `data`
was never assigned and that reference raises `UnboundLocalError`.
`parse_raw_data` itself lives in `kbio_wrapper` (outside the embedded
sources) and is modelled as returning the retrieved row count unchanged;
it is only reached with `data` bound, and no claim concerns its output. -/
def get_data (api : Api) (retries : Nat) : List Ev × Except PyErr Nat :=
  let c := safe_api_connect api retries
  match c.2 with
  | .error _ => (c.1, .error ⟨.unboundLocalError, "data"⟩)
  | .ok _ =>
    match api.getData with
    | none => (c.1 ++ [⟨.getData, false⟩], .error ⟨.unboundLocalError, "data"⟩)
    | some rows =>
      let d := safe_api_disconnect api retries
      (c.1 ++ [⟨.getData, false⟩] ++ d.1, .ok rows)

/-- Modelled from the spec: `payload_to_ecc` (in `kbio_wrapper`, outside
the embedded sources) "translates the abstract payload (ordered technique
list) into the instrument's native parameter format".  The native
parameter blocks themselves are opaque to every claim, so the translation
is modelled as the identity on the ordered list of technique names: one
ECC entry per technique, in payload order. -/
def payload_to_ecc (payload : List String) : List String :=
  payload

/-- The technique-loading loop of `start_job` (source lines 279-293).
State variables as in the source: `ti` is the 1-indexed technique counter
(initially 1), `first` is `True` for the first iteration only, and `last`
is set to `True` when `ti` reaches `ntechs` (and, being never reset, stays
`True` afterwards).  Each iteration calls `api.LoadTechnique` with the
current `first`/`last` markers — with the file lock released, since
`safe_api_connect` has already returned; if the call raises, control
leaves the loop for the enclosing `except` clause (second component
`false`). -/
def loadLoop (api : Api) (ntechs : Nat) :
    Nat → Bool → Bool → List String → List Ev × Bool
  | _, _, _, [] => ([], true)
  | ti, first, last, t :: rest =>
    let last := last || (ti == ntechs)
    let ev : Ev := ⟨.loadTechnique t first last, false⟩
    match api.loadOk ti with
    | true =>
      let r := loadLoop api ntechs (ti + 1) false last rest
      (ev :: r.1, r.2)
    | false => ([ev], false)

/-- The load events the loop produces when every `LoadTechnique` call
succeeds (same state variables as `loadLoop`). -/
def loadEvs (ntechs : Nat) : Nat → Bool → Bool → List String → List Ev
  | _, _, _, [] => []
  | ti, first, last, t :: rest =>
    let last := last || (ti == ntechs)
    ⟨.loadTechnique t first last, false⟩ :: loadEvs ntechs (ti + 1) false last rest

/-- `start_job` (source lines 227-302).  The payload is translated to ECC
parameter pairs, then the `try` block connects, runs the loading loop,
calls `api.StartChannel` and disconnects; the `except` clause only logs,
so whatever happens the function falls through to line 300 and returns the
current timestamp (supplied here as `now`). -/
def start_job (api : Api) (retries : Nat) (payload : List String) (now : Nat) :
    List Ev × Nat :=
  let eccpars := payload_to_ecc payload
  let ntechs := eccpars.length
  let c := safe_api_connect api retries
  match c.2 with
  | .error _ => (c.1, now)
  | .ok _ =>
    let l := loadLoop api ntechs 1 true false eccpars
    match l.2 with
    | false => (c.1 ++ l.1, now)
    | true =>
      match api.startOk with
      | false => (c.1 ++ l.1 ++ [⟨.startChannel, false⟩], now)
      | true =>
        let d := safe_api_disconnect api retries
        (c.1 ++ l.1 ++ [⟨.startChannel, false⟩] ++ d.1, now)

/-- `stop_job` (source lines 305-355).  The `try` block connects and calls
`api.StopChannel` (lock released).  If that call raises, control jumps to
the `except` clause directly; if it succeeds, the very next statement
(line 346) interpolates the local `dt` — which is first assigned only at
line 354 — raising `UnboundLocalError`, which the `except` clause catches.
On both paths `safe_api_disconnect` (line 347) is never reached.  The
`except` clause only logs; the function then closes the job queue,
assigns `dt` and returns its timestamp (supplied here as `now`). -/
def stop_job (api : Api) (retries : Nat) (now : Nat) : List Ev × Nat :=
  let c := safe_api_connect api retries
  match c.2 with
  | .error _ => (c.1, now)
  | .ok _ =>
    match api.stopOk with
    | true => (c.1 ++ [⟨.stopChannel, false⟩], now)
    | false => (c.1 ++ [⟨.stopChannel, false⟩], now)

/-- A pipeline record as the pipeline commands read it: `sampleid`
(`none` = Python `None` = empty), the `ready` flag, and the occupying
`jobid` (`none` = not busy). -/
structure Pipeline where
  sampleid : Option String
  ready : Bool
  jobid : Option Nat
deriving DecidableEq

/-- A client-facing reply (`tomato.models.Reply`): success flag and
message.  The optional `data` payload carries no pipeline state and is not
modelled. -/
structure Reply where
  success : Bool
  msg : String
deriving DecidableEq

/-- The parameter set of a `pipeline` mutation request sent to the daemon:
`sampleid = some v` requests setting the sample id to `v` (so
`some none` requests clearing it), `ready = some b` requests setting the
ready flag; an absent field leaves the field untouched. -/
structure PipelineParams where
  sampleid : Option (Option String)
  ready : Option Bool
deriving DecidableEq

/-- Lookup of `stat.data.pipelines[name]`: `none` models
`name not in stat.data.pipelines`. -/
def findPipeline : List (String × Pipeline) → String → Option Pipeline
  | [], _ => none
  | (n, p) :: rest, name => if n = name then some p else findPipeline rest name

/-- `pipeline_eject` (source lines 317-364), given the daemon's pipeline
map (the preceding daemon-reachability check is assumed to have passed).
Returns the reply together with the mutation request sent to the daemon,
if any: unknown pipeline — failure, no request; `sampleid` empty — success
("already empty"), no request; `jobid` set — failure ("cannot eject from a
running pipeline"), no request; otherwise success and a request clearing
`sampleid` and setting `ready` to `False` (line 359). -/
def pipeline_eject (pips : List (String × Pipeline)) (name : String) :
    Reply × Option PipelineParams :=
  match findPipeline pips name with
  | none => (⟨false, "pipeline " ++ name ++ " not found on tomato"⟩, none)
  | some pip =>
    if pip.sampleid = none then
      (⟨true, "pipeline " ++ name ++ " was already empty"⟩, none)
    else if pip.jobid ≠ none then
      (⟨false, "cannot eject from a running pipeline"⟩, none)
    else
      (⟨true, "pipeline " ++ name ++ " ejected succesffully"⟩,
       some ⟨some none, some false⟩)

/-- `pipeline_ready` (source lines 367-410), same conventions as
`pipeline_eject`: unknown pipeline — failure; `ready` already `True` —
success ("already ready"), no request; `jobid` set — failure ("cannot mark
a running pipeline as ready"); otherwise success and a request setting
`ready` to `True` (line 408). -/
def pipeline_ready (pips : List (String × Pipeline)) (name : String) :
    Reply × Option PipelineParams :=
  match findPipeline pips name with
  | none => (⟨false, "pipeline " ++ name ++ " not found on tomato"⟩, none)
  | some pip =>
    if pip.ready then
      (⟨true, "pipeline " ++ name ++ " was already ready"⟩, none)
    else if pip.jobid ≠ none then
      (⟨false, "cannot mark a running pipeline as ready"⟩, none)
    else
      (⟨true, "pipeline " ++ name ++ " set as ready"⟩, some ⟨none, some true⟩)

/-- Modelled from the spec: the daemon's handler for the `pipeline`
command (the daemon itself is outside the embedded sources) "updates the
named pipeline record with the supplied parameter set `{sampleid?,
ready?}`" — each supplied field overwrites the record's field, absent
fields (and `jobid`, which the command cannot carry) are unchanged. -/
def applyParams (pip : Pipeline) (ps : PipelineParams) : Pipeline where
  sampleid := ps.sampleid.getD pip.sampleid
  ready := ps.ready.getD pip.ready
  jobid := pip.jobid

/-- Applies a record update to the named pipeline in the map. -/
def updatePipeline :
    List (String × Pipeline) → String → (Pipeline → Pipeline) →
      List (String × Pipeline)
  | [], _, _ => []
  | (n, p) :: rest, name, f =>
    if n = name then (n, f p) :: updatePipeline rest name f
    else (n, p) :: updatePipeline rest name f

/-- End-to-end effect of an eject command on the daemon's pipeline map:
the client-side `pipeline_eject` runs, and the daemon applies the mutation
request, if one was sent. -/
def ejectState (pips : List (String × Pipeline)) (name : String) :
    Reply × List (String × Pipeline) :=
  match pipeline_eject pips name with
  | (rep, none) => (rep, pips)
  | (rep, some ps) => (rep, updatePipeline pips name (fun pip => applyParams pip ps))

/-- End-to-end effect of a mark-ready command, as in `ejectState`. -/
def readyState (pips : List (String × Pipeline)) (name : String) :
    Reply × List (String × Pipeline) :=
  match pipeline_ready pips name with
  | (rep, none) => (rep, pips)
  | (rep, some ps) => (rep, updatePipeline pips name (fun pip => applyParams pip ps))

/-- A fully functional hardware stub: every call succeeds, the channel
reports state `"STOP"`. -/
def okApi : Api where
  connect := fun _ => some (0, ⟨"VMP3", 16⟩)
  getChannelInfo := some ⟨"STOP"⟩
  getData := some 42
  loadOk := fun _ => true
  startOk := true
  stopOk := true
  disconnectOk := fun _ => true

/-- A stub whose `Connect` fails on attempts 0 and 1 and succeeds on
attempt 2; all other calls succeed. -/
def stubApi : Api :=
  { okApi with connect := fun k => if k < 2 then none else some (7, ⟨"VMP3", 16⟩) }

/-- A stub whose `Connect` always fails; all other calls succeed. -/
def failApi : Api :=
  { okApi with connect := fun _ => none }

/-- A stub on which everything succeeds but the channel reports the
unrecognized state `"PAUSE"`. -/
def pauseApi : Api :=
  { okApi with getChannelInfo := some ⟨"PAUSE"⟩ }

/-- A stub on which everything succeeds and the channel reports `"RUN"`. -/
def runApi : Api :=
  { okApi with getChannelInfo := some ⟨"RUN"⟩ }

/-- Whether an event is a `Disconnect` attempt. -/
def isDisconnectEv : Ev → Bool
  | ⟨.disconnect _, _⟩ => true
  | _ => false

/-- The technique name of a `LoadTechnique` event. -/
def evTech : Ev → String
  | ⟨.loadTechnique t _ _, _⟩ => t
  | _ => ""

/-- The first-marker of a `LoadTechnique` event. -/
def evFirst : Ev → Bool
  | ⟨.loadTechnique _ f _, _⟩ => f
  | _ => false

/-- The last-marker of a `LoadTechnique` event. -/
def evLast : Ev → Bool
  | ⟨.loadTechnique _ _ l, _⟩ => l
  | _ => false

/-- A concrete registry snapshot: `A` is busy (sample loaded, ready, job 1
running), `B` is empty, `C` is loaded but not ready, `D` is an
invariant-violating record (busy yet not marked ready). -/
def pipsW : List (String × Pipeline) :=
  [("A", ⟨some "LNO-01", true, some 1⟩), ("B", ⟨none, false, none⟩),
   ("C", ⟨some "S2", false, none⟩), ("D", ⟨some "S3", false, some 2⟩)]

/-! Helper lemmas about the retry loops, the loading loop and the registry
map. -/

theorem connEvs_length : ∀ (s len : Nat), (connEvs s len).length = len := by
  intro s len
  induction len generalizing s with
  | zero => rfl
  | succ len ih => simpa [connEvs] using ih (s + 1)

theorem connectGo_ok (api : Api) (r : Nat) :
    ∀ (k rem s : Nat) (res : Nat × DeviceInfo), k < rem →
      (∀ j, j < k → api.connect (s + j) = none) →
      api.connect (s + k) = some res →
      connectGo api r s rem = (connEvs s (k + 1), Except.ok res) := by
  intro k
  induction k with
  | zero =>
    intro rem s res hk hfail hok
    match rem, hk with
    | rem + 1, _ =>
      simp only [Nat.add_zero] at hok
      simp [connectGo, hok, connEvs]
  | succ k ih =>
    intro rem s res hk hfail hok
    match rem, hk with
    | rem + 1, hk =>
      have h0 : api.connect s = none := by simpa using hfail 0 (Nat.succ_pos k)
      have hrec := ih rem (s + 1) res (Nat.lt_of_succ_lt_succ hk)
        (fun j hj => by
          have e : s + 1 + j = s + (j + 1) := by omega
          rw [e]
          exact hfail (j + 1) (Nat.succ_lt_succ hj))
        (by
          have e : s + 1 + k = s + (k + 1) := by omega
          rw [e]
          exact hok)
      simp [connectGo, h0, hrec, connEvs]

theorem connectGo_fail (api : Api) (r : Nat) :
    ∀ (rem s : Nat), (∀ j, j < rem → api.connect (s + j) = none) →
      connectGo api r s rem =
        (connEvs s rem,
         Except.error
           ⟨.exc, "Failed to connect after " ++ toString r ++ " retries"⟩) := by
  intro rem
  induction rem with
  | zero => intro s _; rfl
  | succ rem ih =>
    intro s hfail
    have h0 : api.connect s = none := by simpa using hfail 0 (Nat.succ_pos rem)
    have hrec := ih (s + 1) (fun j hj => by
      have e : s + 1 + j = s + (j + 1) := by omega
      rw [e]
      exact hfail (j + 1) (Nat.succ_lt_succ hj))
    simp [connectGo, h0, hrec, connEvs]

theorem safe_api_connect_first_ok (api : Api) (r : Nat)
    (res : Nat × DeviceInfo) (hr : 1 ≤ r) (hc : api.connect 0 = some res) :
    safe_api_connect api r = ([⟨.connect 0, true⟩], Except.ok res) := by
  have h := connectGo_ok api r 0 r 0 res hr (by omega) (by simpa using hc)
  simpa [safe_api_connect, connEvs] using h

theorem connectGo_no_disconnect (api : Api) (r : Nat) :
    ∀ (rem s : Nat),
      ((connectGo api r s rem).1.all fun e => !isDisconnectEv e) = true := by
  intro rem
  induction rem with
  | zero => intro s; rfl
  | succ rem ih =>
    intro s
    cases h : api.connect s with
    | some res => simp [connectGo, h, isDisconnectEv]
    | none => simpa [connectGo, h, isDisconnectEv] using ih (s + 1)

theorem disconnectGo_eq_discEvs (api : Api) :
    ∀ (rem k : Nat), disconnectGo api k rem = discEvs k rem := by
  intro rem
  induction rem with
  | zero => intro k; rfl
  | succ rem ih =>
    intro k
    cases h : api.disconnectOk k with
    | true => simp [disconnectGo, discEvs, h, ih (k + 1)]
    | false => simp [disconnectGo, discEvs, h, ih (k + 1)]

theorem discEvs_length : ∀ (s len : Nat), (discEvs s len).length = len := by
  intro s len
  induction len generalizing s with
  | zero => rfl
  | succ len ih => simpa [discEvs] using ih (s + 1)

theorem loadLoop_ok (api : Api) (n : Nat) (hl : ∀ i, api.loadOk i = true) :
    ∀ (ts : List String) (ti : Nat) (f l : Bool),
      loadLoop api n ti f l ts = (loadEvs n ti f l ts, true) := by
  intro ts
  induction ts with
  | nil => intro ti f l; rfl
  | cons t rest ih =>
    intro ti f l
    simp [loadLoop, loadEvs, hl ti, ih (ti + 1)]

theorem loadEvs_map_tech (n : Nat) :
    ∀ (ts : List String) (ti : Nat) (f l : Bool),
      (loadEvs n ti f l ts).map evTech = ts := by
  intro ts
  induction ts with
  | nil => intro ti f l; rfl
  | cons t rest ih =>
    intro ti f l
    simp [loadEvs, evTech, ih (ti + 1)]

theorem loadEvs_map_first_false (n : Nat) :
    ∀ (ts : List String) (ti : Nat) (l : Bool),
      (loadEvs n ti false l ts).map evFirst = List.replicate ts.length false := by
  intro ts
  induction ts with
  | nil => intro ti l; rfl
  | cons t rest ih =>
    intro ti l
    simp [loadEvs, evFirst, ih (ti + 1), List.replicate_succ]

theorem loadEvs_map_first (n : Nat)
    (ts : List String) (ti : Nat) (l : Bool) (t0 : String) :
    (loadEvs n ti true l (t0 :: ts)).map evFirst =
      true :: List.replicate ts.length false := by
  simp [loadEvs, evFirst, loadEvs_map_first_false n ts (ti + 1)]

theorem loadEvs_map_last (n : Nat) :
    ∀ (ts : List String) (t0 : String) (ti : Nat) (f : Bool),
      ti + ts.length = n →
      (loadEvs n ti f false (t0 :: ts)).map evLast =
        List.replicate ts.length false ++ [true] := by
  intro ts
  induction ts with
  | nil =>
    intro t0 ti f h
    have e : (ti == n) = true := by simpa using h
    simp [loadEvs, evLast, e]
  | cons t2 rest ih =>
    intro t0 ti f h
    have hne : (ti == n) = false := by
      simp only [List.length_cons] at h
      simp only [beq_eq_false_iff_ne, ne_eq]
      omega
    have hrec := ih t2 (ti + 1) false (by simp only [List.length_cons] at h; omega)
    rw [loadEvs]
    simp only [Bool.false_or, hne, List.map_cons, evLast]
    rw [hrec]
    simp [List.replicate_succ]

theorem findPipeline_update (pips : List (String × Pipeline)) (name : String)
    (f : Pipeline → Pipeline) :
    findPipeline (updatePipeline pips name f) name =
      (findPipeline pips name).map f := by
  induction pips with
  | nil => rfl
  | cons e rest ih =>
    obtain ⟨n, p⟩ := e
    by_cases h : n = name
    · subst h
      simp [updatePipeline, findPipeline]
    · simp [updatePipeline, findPipeline, h, ih]

/-! The claims. -/

/-- Claim C1 (amended): for every retry count r ≥ 1, `safe_api_connect`
attempts the connection at most r times with a fixed sleep after each
failed attempt; if attempt k is the first to succeed it immediately returns
that attempt's (session, device_info), having made exactly k + 1 attempts;
if all r attempts fail it raises — a plain `Exception`, not
`ConnectionError` — after exactly r attempts. -/
theorem safe_api_connect_retry_discipline (api : Api) (r : Nat) :
    (∀ (k : Nat) (res : Nat × DeviceInfo), k < r →
        (∀ j, j < k → api.connect j = none) → api.connect k = some res →
        safe_api_connect api r = (connEvs 0 (k + 1), Except.ok res) ∧
          (safe_api_connect api r).1.length = k + 1) ∧
    ((∀ j, j < r → api.connect j = none) →
        safe_api_connect api r =
          (connEvs 0 r,
           Except.error
             ⟨.exc, "Failed to connect after " ++ toString r ++ " retries"⟩) ∧
          (safe_api_connect api r).1.length = r) := by
  constructor
  · intro k res hk hfail hok
    have h : safe_api_connect api r = (connEvs 0 (k + 1), Except.ok res) :=
      connectGo_ok api r k r 0 res hk (by simpa using hfail) (by simpa using hok)
    exact ⟨h, by rw [h]; exact connEvs_length 0 (k + 1)⟩
  · intro hfail
    have h : safe_api_connect api r =
        (connEvs 0 r,
         Except.error
           ⟨.exc, "Failed to connect after " ++ toString r ++ " retries"⟩) :=
      connectGo_fail api r r 0 (by simpa using hfail)
    exact ⟨h, by rw [h]; exact connEvs_length 0 r⟩

/-- Claim C1 witness: the spec's two stub scenarios — a stub failing twice
then succeeding with r = 3 makes exactly 3 attempts and succeeds; an
always-failing stub with r = 3 fails after exactly 3 attempts. -/
theorem safe_api_connect_retry_discipline_witness :
    (safe_api_connect stubApi 3 = (connEvs 0 3, Except.ok (7, ⟨"VMP3", 16⟩)) ∧
      (safe_api_connect stubApi 3).1.length = 3) ∧
    (safe_api_connect failApi 3 =
        (connEvs 0 3,
         Except.error ⟨.exc, "Failed to connect after 3 retries"⟩) ∧
      (safe_api_connect failApi 3).1.length = 3) :=
  ⟨(safe_api_connect_retry_discipline stubApi 3).1 2 (7, ⟨"VMP3", 16⟩)
      (by decide) (by decide) (by rfl),
   (safe_api_connect_retry_discipline failApi 3).2 (fun _ _ => rfl)⟩

/-- Claim C1 counterexample: with a stub that always fails and r = 1, the
exception raised after exhausting the retries is the plain `Exception`
class (source line 64), not `ConnectionError` as the claim states. -/
theorem connect_exhaustion_raises_plain_exception :
    (safe_api_connect failApi 1).2 =
      Except.error ⟨ExcClass.exc, "Failed to connect after 1 retries"⟩ ∧
    ExcClass.exc ≠ ExcClass.connectionError :=
  ⟨rfl, by decide⟩

/-- Claim C2: refuted on the code — during `get_status`'s
connect → channel-query → disconnect sequence the file lock is not held
continuously: with a fully working stub and one retry, the trace shows the
`GetChannelInfo` hardware call executing with the lock released (the
`FileLock` block inside `safe_api_connect` ends when that function
returns the session). -/
theorem get_status_channel_query_outside_lock :
    (get_status okApi 1).1 =
      [⟨.connect 0, true⟩, ⟨.getChannelInfo, false⟩, ⟨.disconnect 0, true⟩] ∧
    Ev.mk .getChannelInfo false ∈ (get_status okApi 1).1 :=
  ⟨rfl, by decide⟩

/-- Claim C3: refuted on the code — `stop_job` returns a timestamp but its
trace never contains a disconnect attempt, for every stub and retry count:
when `StopChannel` raises, control jumps to the `except` clause directly;
when it succeeds, line 346 references `dt` before assignment and the
resulting `UnboundLocalError` does the same, so `safe_api_disconnect`
(line 347) is unreachable. -/
theorem stop_job_never_attempts_disconnect (api : Api) (r now : Nat) :
    (stop_job api r now).2 = now ∧
    ((stop_job api r now).1.all fun e => !isDisconnectEv e) = true := by
  have hc : ((safe_api_connect api r).1.all fun e => !isDisconnectEv e) = true :=
    connectGo_no_disconnect api r r 0
  rcases h : (safe_api_connect api r).2 with e | v
  · have ht : stop_job api r now = ((safe_api_connect api r).1, now) := by
      simp [stop_job, h]
    rw [ht]
    exact ⟨rfl, hc⟩
  · have ht : stop_job api r now =
        ((safe_api_connect api r).1 ++ [⟨.stopChannel, false⟩], now) := by
      cases hs : api.stopOk <;> simp [stop_job, h, hs]
    rw [ht]
    refine ⟨rfl, ?_⟩
    rw [List.all_append, hc]
    rfl

/-- Claim C4: refuted on the code — `safe_api_disconnect` performs exactly
r disconnect attempts and then raises unconditionally (the `raise` at line
113 sits after the loop and no branch returns early), for every stub: a
successful attempt neither stops the retrying nor lets the function return
normally to its caller. -/
theorem safe_api_disconnect_always_raises (api : Api) (r : Nat) :
    (safe_api_disconnect api r).2 =
      Except.error
        ⟨.exc, "Failed to disconnect after " ++ toString r ++ " retries"⟩ ∧
    (safe_api_disconnect api r).1.length = r := by
  refine ⟨rfl, ?_⟩
  show (disconnectGo api 0 r).length = r
  rw [disconnectGo_eq_discEvs api r 0]
  exact discEvs_length 0 r

/-- Claim C5: refuted on the code — when every connection attempt fails,
`get_status` and `get_data` log and swallow the connect exception and then
raise `UnboundLocalError` on the undefined locals `device_info` (line 161)
and `data` (line 223); the caller observes that error, not a
`ConnectionError`. -/
theorem status_data_connect_failure_unbound_local (api : Api) (r : Nat)
    (h : ∀ j, j < r → api.connect j = none) :
    (get_status api r).2 = Except.error ⟨.unboundLocalError, "device_info"⟩ ∧
    (get_data api r).2 = Except.error ⟨.unboundLocalError, "data"⟩ := by
  have hc : safe_api_connect api r =
      (connEvs 0 r,
       Except.error
         ⟨.exc, "Failed to connect after " ++ toString r ++ " retries"⟩) :=
    connectGo_fail api r r 0 (by simpa using h)
  constructor
  · simp [get_status, hc]
  · simp [get_data, hc]

/-- Claim C5 witness: an always-failing stub with two retries. -/
theorem status_data_connect_failure_unbound_local_witness :
    (get_status failApi 2).2 = Except.error ⟨.unboundLocalError, "device_info"⟩ ∧
    (get_data failApi 2).2 = Except.error ⟨.unboundLocalError, "data"⟩ :=
  status_data_connect_failure_unbound_local failApi 2 (fun _ _ => rfl)

/-- Claim C6 (amended): `get_status` maps channel state STOP to
ready = true and RUN to ready = false, and every other state raises a
fatal `ValueError("channel state not understood")` — the code has no
`ProtocolError` type — rather than being treated as ready. -/
theorem get_status_ready_mapping (api : Api) (r : Nat)
    (res : Nat × DeviceInfo) (ci : ChannelInfo) (hr : 1 ≤ r)
    (hc : api.connect 0 = some res) (hci : api.getChannelInfo = some ci) :
    (ci.state = "STOP" → (get_status api r).2 = Except.ok (true, ci.state)) ∧
    (ci.state = "RUN" → (get_status api r).2 = Except.ok (false, ci.state)) ∧
    (ci.state ≠ "STOP" → ci.state ≠ "RUN" →
        (get_status api r).2 =
          Except.error ⟨.valueError, "channel state not understood"⟩) := by
  have h1 := safe_api_connect_first_ok api r res hr hc
  refine ⟨fun hs => ?_, fun hs => ?_, fun hs1 hs2 => ?_⟩
  · simp [get_status, h1, hci, hs]
  · simp [get_status, h1, hci, hs]
  · simp [get_status, h1, hci, hs1, hs2]

/-- Claim C6 witness: the mapping at the three concrete stubs (STOP, RUN
and the unrecognized PAUSE). -/
theorem get_status_ready_mapping_witness :
    (get_status okApi 1).2 = Except.ok (true, "STOP") ∧
    (get_status runApi 1).2 = Except.ok (false, "RUN") ∧
    (get_status pauseApi 1).2 =
      Except.error ⟨.valueError, "channel state not understood"⟩ :=
  ⟨(get_status_ready_mapping okApi 1 (0, ⟨"VMP3", 16⟩) ⟨"STOP"⟩ (by decide)
      rfl rfl).1 rfl,
   (get_status_ready_mapping runApi 1 (0, ⟨"VMP3", 16⟩) ⟨"RUN"⟩ (by decide)
      rfl rfl).2.1 rfl,
   (get_status_ready_mapping pauseApi 1 (0, ⟨"VMP3", 16⟩) ⟨"PAUSE"⟩ (by decide)
      rfl rfl).2.2 (by decide) (by decide)⟩

/-- Claim C6 counterexample: on the unrecognized state "PAUSE" the raised
exception is of class `ValueError` (source line 173), and that class is
not the spec's `ProtocolError`. -/
theorem unrecognized_state_raises_valueError :
    (get_status pauseApi 1).2 =
      Except.error ⟨ExcClass.valueError, "channel state not understood"⟩ ∧
    ExcClass.valueError ≠ ExcClass.protocolError :=
  ⟨rfl, by decide⟩

/-- Claim C7: for a known pipeline satisfying the registry invariant
(jobid set ⇒ ready and sample present): if its jobid is set, eject returns
the ConflictError failure reply and the pipeline map is unchanged; if its
sampleid is empty, eject returns success and the map is unchanged. -/
theorem eject_busy_conflicts_empty_idempotent
    (pips : List (String × Pipeline)) (name : String) (pip : Pipeline)
    (hfind : findPipeline pips name = some pip)
    (hinv : pip.jobid ≠ none → pip.ready = true ∧ pip.sampleid ≠ none) :
    (pip.jobid ≠ none →
        (ejectState pips name).1 =
          ⟨false, "cannot eject from a running pipeline"⟩ ∧
        (ejectState pips name).2 = pips) ∧
    (pip.sampleid = none →
        (ejectState pips name).1 =
          ⟨true, "pipeline " ++ name ++ " was already empty"⟩ ∧
        (ejectState pips name).2 = pips) := by
  constructor
  · intro hj
    have hs := (hinv hj).2
    constructor <;> simp [ejectState, pipeline_eject, hfind, hs, hj]
  · intro hs
    constructor <;> simp [ejectState, pipeline_eject, hfind, hs]

/-- Claim C7 witness: the busy pipeline A and the empty pipeline B of the
concrete registry snapshot. -/
theorem eject_busy_conflicts_empty_idempotent_witness :
    ((ejectState pipsW "A").1 = ⟨false, "cannot eject from a running pipeline"⟩ ∧
      (ejectState pipsW "A").2 = pipsW) ∧
    ((ejectState pipsW "B").1 = ⟨true, "pipeline " ++ "B" ++ " was already empty"⟩ ∧
      (ejectState pipsW "B").2 = pipsW) :=
  ⟨(eject_busy_conflicts_empty_idempotent pipsW "A" ⟨some "LNO-01", true, some 1⟩
      rfl (fun _ => ⟨rfl, by decide⟩)).1 (by decide),
   (eject_busy_conflicts_empty_idempotent pipsW "B" ⟨none, false, none⟩
      rfl (fun hx => absurd rfl hx)).2 rfl⟩

/-- Claim C8 counterexample: pipeline A is busy (jobid 1 set and — as the
invariant requires of a busy pipeline — ready, sample loaded), yet
`pipeline_ready` returns a success reply: the already-ready check at
source line 396 precedes the busy-pipeline check at line 401. -/
theorem ready_on_busy_pipeline_returns_success :
    findPipeline pipsW "A" = some ⟨some "LNO-01", true, some 1⟩ ∧
    (Pipeline.mk (some "LNO-01") true (some 1)).jobid ≠ none ∧
    (readyState pipsW "A").1 = ⟨true, "pipeline " ++ "A" ++ " was already ready"⟩ ∧
    (readyState pipsW "A").2 = pipsW :=
  ⟨rfl, by decide, rfl, rfl⟩

/-- Claim C8 (amended): for a known pipeline whose jobid is set, mark-ready
fails with the ConflictError reply only when the pipeline is not already
marked ready; when the ready flag is already set (as the invariant
guarantees of every busy pipeline) the operation instead returns an
idempotent success reply; the pipeline map is unchanged in either case. -/
theorem ready_busy_conflict_precedence
    (pips : List (String × Pipeline)) (name : String) (pip : Pipeline)
    (hfind : findPipeline pips name = some pip) :
    (pip.ready = false → pip.jobid ≠ none →
        (readyState pips name).1 =
          ⟨false, "cannot mark a running pipeline as ready"⟩ ∧
        (readyState pips name).2 = pips) ∧
    (pip.ready = true →
        (readyState pips name).1 =
          ⟨true, "pipeline " ++ name ++ " was already ready"⟩ ∧
        (readyState pips name).2 = pips) := by
  constructor
  · intro hr hj
    constructor <;> simp [readyState, pipeline_ready, hfind, hr, hj]
  · intro hr
    constructor <;> simp [readyState, pipeline_ready, hfind, hr]

/-- Claim C8 witness: the invariant-violating busy-but-not-ready pipeline D
draws the ConflictError reply; the busy (and hence ready) pipeline A draws
the idempotent success reply. -/
theorem ready_busy_conflict_precedence_witness :
    ((readyState pipsW "D").1 = ⟨false, "cannot mark a running pipeline as ready"⟩ ∧
      (readyState pipsW "D").2 = pipsW) ∧
    ((readyState pipsW "A").1 = ⟨true, "pipeline " ++ "A" ++ " was already ready"⟩ ∧
      (readyState pipsW "A").2 = pipsW) :=
  ⟨(ready_busy_conflict_precedence pipsW "D" ⟨some "S3", false, some 2⟩ rfl).1
      rfl (by decide),
   (ready_busy_conflict_precedence pipsW "A" ⟨some "LNO-01", true, some 1⟩ rfl).2 rfl⟩

/-- Claim C9: with a working stub, `start_job` on a payload of n ≥ 1
techniques loads them onto the channel in payload order (the trace's load
events carry exactly the payload's technique names, in order), with the
first-marker set exactly on the first loaded technique and the last-marker
exactly on the last (both on the sole technique when n = 1), and only
after all loads starts channel execution, returning the start
timestamp. -/
theorem start_job_loads_in_order_with_markers (api : Api) (r now : Nat)
    (payload : List String) (res : Nat × DeviceInfo) (hp : payload ≠ [])
    (hr : 1 ≤ r) (hc : api.connect 0 = some res)
    (hl : ∀ i, api.loadOk i = true) (hs : api.startOk = true) :
    start_job api r payload now =
      ([⟨.connect 0, true⟩] ++ loadEvs payload.length 1 true false payload ++
        [⟨.startChannel, false⟩] ++ discEvs 0 r, now) ∧
    (loadEvs payload.length 1 true false payload).map evTech = payload ∧
    (loadEvs payload.length 1 true false payload).map evFirst =
      true :: List.replicate (payload.length - 1) false ∧
    (loadEvs payload.length 1 true false payload).map evLast =
      List.replicate (payload.length - 1) false ++ [true] := by
  obtain ⟨t0, rest, rfl⟩ := List.exists_cons_of_ne_nil hp
  have h1 := safe_api_connect_first_ok api r res hr hc
  have h2 := loadLoop_ok api (t0 :: rest).length hl (t0 :: rest) 1 true false
  simp only [List.length_cons] at h2
  refine ⟨?_, loadEvs_map_tech _ _ _ _ _, ?_, ?_⟩
  · simp [start_job, payload_to_ecc, h1, h2, hs, safe_api_disconnect,
      disconnectGo_eq_discEvs api r 0]
  · simpa using loadEvs_map_first (t0 :: rest).length rest 1 false t0
  · simpa using loadEvs_map_last (t0 :: rest).length rest t0 1 true
      (by simp only [List.length_cons]; omega)

/-- Claim C9 witness: a two-technique payload on a working stub with
r = 2. -/
theorem start_job_loads_in_order_with_markers_witness :
    start_job okApi 2 ["OCV", "CP"] 9 =
      ([⟨.connect 0, true⟩] ++ loadEvs 2 1 true false ["OCV", "CP"] ++
        [⟨.startChannel, false⟩] ++ discEvs 0 2, 9) ∧
    (loadEvs 2 1 true false ["OCV", "CP"]).map evTech = ["OCV", "CP"] ∧
    (loadEvs 2 1 true false ["OCV", "CP"]).map evFirst =
      true :: List.replicate 1 false ∧
    (loadEvs 2 1 true false ["OCV", "CP"]).map evLast =
      List.replicate 1 false ++ [true] :=
  start_job_loads_in_order_with_markers okApi 2 9 ["OCV", "CP"]
    (0, ⟨"VMP3", 16⟩) (by decide) (by decide) rfl (fun _ => rfl) rfl

/-- Claim C10: for a known pipeline with a sample loaded and no job, eject
succeeds and its mutation request sets the sample id to empty and the
ready flag to false, so the ejected pipeline ends empty and not marked
ready. -/
theorem eject_clears_sample_and_ready
    (pips : List (String × Pipeline)) (name : String) (pip : Pipeline)
    (sid : String) (hfind : findPipeline pips name = some pip)
    (hs : pip.sampleid = some sid) (hj : pip.jobid = none) :
    (ejectState pips name).1 =
      ⟨true, "pipeline " ++ name ++ " ejected succesffully"⟩ ∧
    findPipeline (ejectState pips name).2 name = some ⟨none, false, none⟩ := by
  have hmut : pipeline_eject pips name =
      (⟨true, "pipeline " ++ name ++ " ejected succesffully"⟩,
       some ⟨some none, some false⟩) := by
    simp [pipeline_eject, hfind, hs, hj]
  constructor
  · simp [ejectState, hmut]
  · simp [ejectState, hmut, findPipeline_update, hfind, applyParams, hj]

/-- Claim C10 witness: ejecting the loaded, job-free pipeline C. -/
theorem eject_clears_sample_and_ready_witness :
    (ejectState pipsW "C").1 =
      ⟨true, "pipeline " ++ "C" ++ " ejected succesffully"⟩ ∧
    findPipeline (ejectState pipsW "C").2 "C" = some ⟨none, false, none⟩ :=
  eject_clears_sample_and_ready pipsW "C" ⟨some "S2", false, none⟩ "S2" rfl rfl rfl

end Tomato
